import Mathlib

/-!
Verification of the multi-provider response orchestrator of Vigil
(src/core/brain.py).

The Python module is embedded shallowly:

* `Brain` mirrors the mutable fields of the `Brain` class that the
  orchestration logic touches (availability flags for the three provider
  clients, the system prompt, `conversation_history`, `_response_cache`).
* Python's insertion-ordered `dict[int, str]` is embedded as an association
  list `List (Int × String)` with `dictGet` / `dictSet` (assignment to an
  existing key updates in place, a new key is appended at the end, matching
  CPython's insertion-order semantics), and `List.tail` models
  `d.pop(next(iter(d)))` (removal of the first-inserted entry).
* The built-in `hash` on strings is a parameter `pyHash : String → Int` of
  every definition that uses it; `pyHashModel` below is one concrete model
  pinning the only CPython fact the development relies on, `hash "" = 0`.
* Network calls are parameters: each provider's API is a function from the
  request the code builds to either a raised exception (`Except.error`) or
  the parsed successful response.  Exceptions escaping a modelled function
  are an `Except.error` result; exceptions the source catches never show up
  in the embedded function's type.
* Each single-provider operation also returns the list of adapter requests
  it actually issued, so that "no adapter was invoked" and "the request
  carried temperature t" are stateable.
-/

set_option linter.unusedVariables false

/-- src/core/brain.py line 27: `CACHE_HISTORY_THRESHOLD = 10`. -/
def CACHE_HISTORY_THRESHOLD : Nat := 10

/-- src/core/brain.py line 28: `MAX_RESPONSE_CACHE_SIZE = 50`. -/
def MAX_RESPONSE_CACHE_SIZE : Nat := 50

/-- src/core/brain.py lines 31-34: the `Provider` enum. -/
inductive Provider where
  | openai
  | anthropic
  | poe
deriving DecidableEq

/-- src/core/brain.py lines 37-41: `Message` (the open `metadata` map is
never read by the orchestration logic and is omitted). -/
structure Message where
  role : String
  content : String
deriving DecidableEq

/-- The fields of `config.settings.LLMConfig` that brain.py reads.  The
config module is outside the orchestrator core, so the model is parametric
over its values. -/
structure LLMConfigModel where
  PRIMARY_MODEL : String
  CLAUDE_MODEL : String
  GEMINI_MODEL : String
  DEFAULT_TEMPERATURE : Rat
deriving DecidableEq

/-- src/core/brain.py lines 44-50: `LLMResponse`.  The `metadata` dict is
split into the two keys the source ever writes: `{"cached": True}` on the
cache-hit path and `{"individual_responses": responses}` in trinity mode. -/
structure LLMResponse where
  text : String
  provider : Provider
  model : String
  tokensUsed : Nat := 0
  cachedFlag : Bool := false
  individualResponses : List (String × String) := []
deriving DecidableEq

/-- The state of one `Brain` instance (src/core/brain.py lines 58-79).
A client field is `true` when the corresponding API key was configured,
so that the client object / availability flag is non-None. -/
structure Brain where
  openaiClient : Bool
  anthropicClient : Bool
  poeAvailable : Bool
  systemPrompt : String
  conversationHistory : List Message
  responseCache : List (Int × String)
deriving DecidableEq

/-- Lookup in the insertion-ordered dict model (`d.get(k)`). -/
def dictGet (d : List (Int × String)) (k : Int) : Option String :=
  match d with
  | [] => none
  | (k1, v) :: rest => if k1 = k then some v else dictGet rest k

/-- Assignment `d[k] = v` in the insertion-ordered dict model: an existing
key keeps its position and gets the new value, a fresh key is appended. -/
def dictSet (d : List (Int × String)) (k : Int) (v : String) : List (Int × String) :=
  match d with
  | [] => [(k, v)]
  | (k1, v1) :: rest => if k1 = k then (k1, v) :: rest else (k1, v1) :: dictSet rest k v

/-- Truthiness of a Python `Optional[int]`: `None` and `0` are falsy. -/
def pyTruthyOptInt : Option Int → Bool
  | none => false
  | some n => n != 0

/-- Truthiness of a Python `Optional[str]`: `None` and `""` are falsy. -/
def pyTruthyOptStr : Option String → Bool
  | none => false
  | some s => s != ""

/-- Python `temperature or LLMConfig.DEFAULT_TEMPERATURE` (brain.py lines
152 and 195): `None` and `0.0` are falsy, so both select the default. -/
def pyOrTemp (t : Option Rat) (d : Rat) : Rat :=
  match t with
  | none => d
  | some x => if x = 0 then d else x

/-- One concrete model of CPython's built-in `hash` on `str`.  The only
fact about `hash` this development uses at concrete inputs is that
`hash("")` is `0` in CPython (the byte hash of an empty buffer is `0`
independently of hash randomization, while nonempty strings receive a
seed-dependent value that the general theorems treat as an arbitrary
`pyHash`); here nonempty strings are given some nonzero stand-in value. -/
def pyHashModel (s : String) : Int := (s.length : Int)

/-- src/core/brain.py lines 81-86, `Brain._cache_key`: `None` when the
history is longer than the threshold, otherwise `hash(prompt)`. -/
def Brain.cacheKey (pyHash : String → Int) (b : Brain) (prompt : String) : Option Int :=
  if b.conversationHistory.length > CACHE_HISTORY_THRESHOLD then none
  else some (pyHash prompt)

/-- src/core/brain.py lines 88-93, `Brain._get_cached_response`.  The
source guard is `if cache_key:`, so a key of `0` (not only `None`) skips
the dictionary lookup. -/
def Brain.getCachedResponse (pyHash : String → Int) (b : Brain) (prompt : String) :
    Option String :=
  match b.cacheKey pyHash prompt with
  | some k => if k ≠ 0 then dictGet b.responseCache k else none
  | none => none

/-- src/core/brain.py lines 100-104: the body of `_cache_response` once a
truthy key is in hand — pop the first-inserted entry when at capacity,
then assign. -/
def cachePut (cache : List (Int × String)) (k : Int) (v : String) :
    List (Int × String) :=
  if MAX_RESPONSE_CACHE_SIZE ≤ cache.length then dictSet cache.tail k v
  else dictSet cache k v

/-- src/core/brain.py lines 95-104, `Brain._cache_response`: a falsy key
(`None` because the history is long, or hash `0`) stores nothing. -/
def Brain.cacheResponse (pyHash : String → Int) (b : Brain) (prompt response : String) :
    Brain :=
  match b.cacheKey pyHash prompt with
  | some k =>
      if k ≠ 0 then { b with responseCache := cachePut b.responseCache k response }
      else b
  | none => b

/-- src/core/brain.py lines 106-110, `Brain.add_to_history`: append, then
keep only the last 40 messages (`[-40:]`). -/
def Brain.addToHistory (b : Brain) (role content : String) : Brain :=
  let hist := b.conversationHistory ++ [{ role := role, content := content }]
  { b with conversationHistory :=
      if 40 < hist.length then hist.drop (hist.length - 40) else hist }

/-- The rollback idiom of every `except` branch (brain.py lines 181-182,
223-224, 270-271): pop the last message when it is a user turn. -/
def Brain.popUserRollback (b : Brain) : Brain :=
  match b.conversationHistory.getLast? with
  | some m =>
      if m.role = "user" then { b with conversationHistory := b.conversationHistory.dropLast }
      else b
  | none => b

/-- src/core/brain.py lines 115-119, `_format_messages_openai`. -/
def Brain.formatMessagesOpenai (b : Brain) : List Message :=
  { role := "system", content := b.systemPrompt } :: b.conversationHistory

/-- src/core/brain.py lines 121-126, `_format_messages_anthropic`. -/
def Brain.formatMessagesAnthropic (b : Brain) : String × List Message :=
  (b.systemPrompt, b.conversationHistory.filter (fun m => m.role != "system"))

/-- The request `think_with_openai` hands to
`openai_client.chat.completions.create` (brain.py lines 157-162). -/
structure OpenAIRequest where
  model : String
  messages : List Message
  temperature : Rat
  maxTokens : Nat
deriving DecidableEq

/-- The request `think_with_claude` hands to
`anthropic_client.messages.create` (brain.py lines 202-207).  Note the
source passes no temperature to this API. -/
structure AnthropicRequest where
  model : String
  maxTokens : Nat
  system : String
  messages : List Message
deriving DecidableEq

/-- The request `think_with_gemini` hands to `fp.get_bot_response`
(brain.py lines 241-254). -/
structure GeminiRequest where
  messages : List Message
  botName : String
deriving DecidableEq

/-- A request issued to one of the three provider adapters. -/
inductive AdapterRequest where
  | openai (r : OpenAIRequest)
  | anthropic (r : AnthropicRequest)
  | gemini (r : GeminiRequest)
deriving DecidableEq

/-- The provider an adapter request went to. -/
def AdapterRequest.provider : AdapterRequest → Provider
  | .openai _ => .openai
  | .anthropic _ => .anthropic
  | .gemini _ => .poe

/-- Result of one orchestrator operation: the new brain state, the value
returned to the caller (`None` on failure), and the adapter requests that
were actually issued during the call. -/
structure ThinkResult where
  brain : Brain
  response : Option LLMResponse
  requests : List AdapterRequest
deriving DecidableEq

/-- Outcome of the OpenAI completions API: raised exception, or message
text together with `response.usage.total_tokens` (`None` when `usage` is
absent). -/
def OpenAIApi : Type := OpenAIRequest → Except String (String × Option Nat)

/-- Outcome of the Anthropic messages API: raised exception, or text with
input and output token counts. -/
def AnthropicApi : Type := AnthropicRequest → Except String (String × Nat × Nat)

/-- Outcome of the Poe/Gemini streaming call: raised exception, or the
concatenation of all partial texts. -/
def GeminiApi : Type := GeminiRequest → Except String String

/-- src/core/brain.py lines 128-183, `Brain.think_with_openai`. -/
def Brain.thinkWithOpenai (cfg : LLMConfigModel) (pyHash : String → Int) (oApi : OpenAIApi)
    (b : Brain) (prompt : String) (temperature : Option Rat) (maxTokens : Nat) :
    ThinkResult :=
  if !b.openaiClient then ⟨b, none, []⟩
  else
    let cached := b.getCachedResponse pyHash prompt
    if pyTruthyOptStr cached then
      let text := cached.getD ""
      let b1 := (b.addToHistory "user" prompt).addToHistory "assistant" text
      ⟨b1, some { text := text, provider := .openai, model := cfg.PRIMARY_MODEL,
                  tokensUsed := 0, cachedFlag := true }, []⟩
    else
      let temp := pyOrTemp temperature cfg.DEFAULT_TEMPERATURE
      let b1 := b.addToHistory "user" prompt
      let req : OpenAIRequest :=
        { model := cfg.PRIMARY_MODEL, messages := b1.formatMessagesOpenai,
          temperature := temp, maxTokens := maxTokens }
      match oApi req with
      | .ok (text, usage) =>
          let b2 := b1.addToHistory "assistant" text
          let b3 := b2.cacheResponse pyHash prompt text
          ⟨b3, some { text := text, provider := .openai, model := cfg.PRIMARY_MODEL,
                      tokensUsed := usage.getD 0 }, [.openai req]⟩
      | .error _ => ⟨b1.popUserRollback, none, [.openai req]⟩

/-- src/core/brain.py lines 185-225, `Brain.think_with_claude`.  The
temperature default is computed (line 195) but never passed to the API. -/
def Brain.thinkWithClaude (cfg : LLMConfigModel) (cApi : AnthropicApi)
    (b : Brain) (prompt : String) (temperature : Option Rat) (maxTokens : Nat) :
    ThinkResult :=
  if !b.anthropicClient then ⟨b, none, []⟩
  else
    let _temp := pyOrTemp temperature cfg.DEFAULT_TEMPERATURE
    let b1 := b.addToHistory "user" prompt
    let sysAndMsgs := b1.formatMessagesAnthropic
    let req : AnthropicRequest :=
      { model := cfg.CLAUDE_MODEL, maxTokens := maxTokens,
        system := sysAndMsgs.1, messages := sysAndMsgs.2 }
    match cApi req with
    | .ok (text, inTok, outTok) =>
        let b2 := b1.addToHistory "assistant" text
        ⟨b2, some { text := text, provider := .anthropic, model := cfg.CLAUDE_MODEL,
                    tokensUsed := inTok + outTok }, [.anthropic req]⟩
    | .error _ => ⟨b1.popUserRollback, none, [.anthropic req]⟩

/-- src/core/brain.py lines 227-272, `Brain.think_with_gemini`.
`import fastapi_poe` is the first statement of the `try` block, so an
`ImportError` (modelled by `fpInstalled = false`) returns `None` before
any turn is appended.  The `temperature` parameter is never used. -/
def Brain.thinkWithGemini (cfg : LLMConfigModel) (gApi : GeminiApi) (fpInstalled : Bool)
    (b : Brain) (prompt : String) (temperature : Option Rat) : ThinkResult :=
  if !b.poeAvailable then ⟨b, none, []⟩
  else if !fpInstalled then ⟨b, none, []⟩
  else
    let b1 := b.addToHistory "user" prompt
    let req : GeminiRequest :=
      { messages := { role := "system", content := b.systemPrompt } :: b1.conversationHistory,
        botName := cfg.GEMINI_MODEL }
    match gApi req with
    | .ok text =>
        let b2 := b1.addToHistory "assistant" text
        ⟨b2, some { text := text, provider := .poe, model := cfg.GEMINI_MODEL }, [.gemini req]⟩
    | .error _ => ⟨b1.popUserRollback, none, [.gemini req]⟩

/-- src/core/brain.py lines 274-297, `Brain.think`: explicit preference
routes to exactly one provider; with no preference, OpenAI then Claude
then Gemini, moving on exactly when the previous call returned `None`
(an `LLMResponse` object is always truthy in Python, whatever its text). -/
def Brain.think (cfg : LLMConfigModel) (pyHash : String → Int)
    (oApi : OpenAIApi) (cApi : AnthropicApi) (gApi : GeminiApi) (fpInstalled : Bool)
    (b : Brain) (prompt : String) (provider : Option Provider)
    (temperature : Option Rat) : ThinkResult :=
  match provider with
  | some .anthropic => b.thinkWithClaude cfg cApi prompt temperature 2000
  | some .poe => b.thinkWithGemini cfg gApi fpInstalled prompt temperature
  | some .openai => b.thinkWithOpenai cfg pyHash oApi prompt temperature 2000
  | none =>
      let r1 := b.thinkWithOpenai cfg pyHash oApi prompt temperature 2000
      if r1.response.isSome then r1
      else
        let r2 := r1.brain.thinkWithClaude cfg cApi prompt temperature 2000
        if r2.response.isSome then { r2 with requests := r1.requests ++ r2.requests }
        else
          let r3 := r2.brain.thinkWithGemini cfg gApi fpInstalled prompt temperature
          { r3 with requests := r1.requests ++ r2.requests ++ r3.requests }

/-- The prompt text built at src/core/brain.py lines 342-353 (an f-string;
`chr(10)` is a newline). -/
def synthesisPromptText (prompt : String) (responses : List (String × String)) : String :=
  "You received the following question: \"" ++ prompt ++ "\"\n\n" ++
  "Three AI perspectives responded:\n\n" ++
  String.intercalate "\n"
    (responses.map (fun nt => "**" ++ nt.1 ++ ":** " ++ nt.2)) ++
  "\n\nSynthesize these into ONE unified response that:\n" ++
  "1. Captures the convergent truth across all perspectives\n" ++
  "2. Notes any important tensions or differences\n" ++
  "3. Speaks as Vigil - the unified voice of the Trinity\n\n" ++
  "Keep it concise (3-5 sentences)."

/-- The request the synthesis step hands to
`openai_client.chat.completions.create` (brain.py lines 358-365). -/
structure SynthRequest where
  model : String
  messages : List Message
  temperature : Rat
deriving DecidableEq

/-- Builds the synthesis request of brain.py lines 358-365. -/
def mkSynthRequest (cfg : LLMConfigModel) (systemPrompt prompt : String)
    (responses : List (String × String)) : SynthRequest :=
  { model := cfg.PRIMARY_MODEL,
    messages := [{ role := "system", content := systemPrompt },
                 { role := "user", content := synthesisPromptText prompt responses }],
    temperature := (7 : Rat) / 10 }

/-- Outcome of the synthesis completions call. -/
def SynthApi : Type := SynthRequest → Except String String

/-- src/core/brain.py lines 339-375: the part of `trinity_mode` that runs
after the thread pool has been joined, taking the collected
`responses` as input.  This section has no internal exception handler:
a `None` OpenAI client (`AttributeError` at `self.openai_client.chat`)
or a raising synthesis call escapes `trinity_mode`, which the result
type records as `Except.error`. -/
def Brain.trinitySynthesis (cfg : LLMConfigModel) (synthApi : SynthApi)
    (b : Brain) (originalHistory : List Message) (prompt : String)
    (responses : List (String × String)) :
    Except String (Brain × Option LLMResponse) :=
  if responses.isEmpty then .ok (b, none)
  else
    let b1 := { b with conversationHistory := originalHistory }
    let b2 := b1.addToHistory "user" prompt
    if !b.openaiClient then
      .error "AttributeError: NoneType object has no attribute chat"
    else
      match synthApi (mkSynthRequest cfg b.systemPrompt prompt responses) with
      | .error e => .error e
      | .ok text =>
          let b3 := b2.addToHistory "assistant" text
          .ok (b3, some { text := text, provider := .openai, model := "trinity",
                          individualResponses := responses })

/-- src/core/brain.py lines 305-337: the fan-out phase of `trinity_mode`,
modelled in the interleaving where each submitted task runs to completion
before the next starts (one legal schedule of the thread pool; the data
races between schedules are modelled separately by `taskStep` below).
Each branch first rebinds `self.conversation_history` to a copy of
`original_history`, then runs its `think_with_*`; a branch contributes
`(name, response.text)` exactly when its response is not `None`. -/
def Brain.trinityBranches (cfg : LLMConfigModel) (pyHash : String → Int)
    (oApi : OpenAIApi) (cApi : AnthropicApi) (gApi : GeminiApi) (fpInstalled : Bool)
    (b : Brain) (prompt : String) : Brain × List (String × String) :=
  let original := b.conversationHistory
  let step1 :=
    if b.openaiClient then
      let r := ({ b with conversationHistory := original }).thinkWithOpenai
                 cfg pyHash oApi prompt none 2000
      (r.brain, match r.response with
                | some resp => [("GPT-4o", resp.text)]
                | none => ([] : List (String × String)))
    else (b, ([] : List (String × String)))
  let step2 :=
    if b.anthropicClient then
      let r := ({ step1.1 with conversationHistory := original }).thinkWithClaude
                 cfg cApi prompt none 2000
      (r.brain, step1.2 ++ (match r.response with
                            | some resp => [("Claude", resp.text)]
                            | none => []))
    else step1
  if b.poeAvailable then
    let r := ({ step2.1 with conversationHistory := original }).thinkWithGemini
               cfg gApi fpInstalled prompt none
    (r.brain, step2.2 ++ (match r.response with
                          | some resp => [("Gemini", resp.text)]
                          | none => []))
  else step2

/-- src/core/brain.py lines 299-375, `Brain.trinity_mode`: fan-out phase
followed by the synthesis phase on the original (pre-prompt) history. -/
def Brain.trinityMode (cfg : LLMConfigModel) (pyHash : String → Int)
    (oApi : OpenAIApi) (cApi : AnthropicApi) (gApi : GeminiApi) (fpInstalled : Bool)
    (synthApi : SynthApi) (b : Brain) (prompt : String) :
    Except String (Brain × Option LLMResponse) :=
  let original := b.conversationHistory
  let fanned := b.trinityBranches cfg pyHash oApi cApi gApi fpInstalled prompt
  fanned.1.trinitySynthesis cfg synthApi original prompt fanned.2

/-!
Interleaving model of the fan-out phase of `trinity_mode`.

Every worker task of brain.py lines 309-319 executes, against the shared
attribute `self.conversation_history`, the four steps

  1. `self.conversation_history = original_history.copy()`   (resetCopy)
  2. `self.add_to_history("user", prompt)`                    (appendUser)
  3. build and send the provider request from
     `self.conversation_history`                              (sendRequest)
  4. `self.add_to_history("assistant", answer)`               (appendAssistant)

where steps of different tasks may interleave arbitrarily (the GIL is
released during each network round-trip).  The shared cell `hist` holds
the list currently bound to `self.conversation_history`; `requests`
records, per task, the history its provider call actually read.
-/

/-- One of the four shared-state actions a trinity worker task performs. -/
inductive TaskAction where
  | resetCopy
  | appendUser
  | sendRequest
  | appendAssistant
deriving DecidableEq

/-- The truncation applied by `add_to_history` (brain.py lines 108-110). -/
def trunc40 (l : List Message) : List Message :=
  if 40 < l.length then l.drop (l.length - 40) else l

/-- The shared state of the fan-out phase: the list currently bound to
`self.conversation_history`, and the history each task's provider call
observed, tagged with the task's index. -/
structure SharedState where
  hist : List Message
  observed : List (Nat × List Message)
deriving DecidableEq

/-- Effect of one task step on the shared state. -/
def taskStep (original : List Message) (prompt : String) (answers : Nat → String) :
    SharedState → Nat × TaskAction → SharedState
  | s, (_, .resetCopy) => { s with hist := original }
  | s, (_, .appendUser) => { s with hist := trunc40 (s.hist ++ [{ role := "user", content := prompt }]) }
  | s, (i, .sendRequest) => { s with observed := s.observed ++ [(i, s.hist)] }
  | s, (i, .appendAssistant) =>
      { s with hist := trunc40 (s.hist ++ [{ role := "assistant", content := answers i }]) }

/-- Runs a schedule (an interleaving of the tasks' steps) from the
pre-prompt history. -/
def runSchedule (original : List Message) (prompt : String) (answers : Nat → String)
    (sched : List (Nat × TaskAction)) : SharedState :=
  sched.foldl (taskStep original prompt answers) { hist := original, observed := [] }

/-- The steps a given task contributes to a schedule, in order.  A
schedule is a legal interleaving when every task's projection is
`[resetCopy, appendUser, sendRequest, appendAssistant]`. -/
def taskProjection (sched : List (Nat × TaskAction)) (i : Nat) : List TaskAction :=
  (sched.filter (fun st => st.1 == i)).map (fun st => st.2)

/-- A sequence of `add_to_history` calls (role, content pairs), folded
over a brain state. -/
def Brain.applyAppends (b : Brain) (ops : List (String × String)) : Brain :=
  ops.foldl (fun acc op => acc.addToHistory op.1 op.2) b

/-- A sequence of cache insertions (key, value pairs), folded over a
cache state. -/
def applyCachePuts (cache : List (Int × String)) (ops : List (Int × String)) :
    List (Int × String) :=
  ops.foldl (fun c kv => cachePut c kv.1 kv.2) cache

/-! ### Concrete instances used to evaluate the model -/

/-- A concrete configuration instance. -/
def cfg0 : LLMConfigModel :=
  { PRIMARY_MODEL := "gpt-4o", CLAUDE_MODEL := "claude-3-5-sonnet-20241022",
    GEMINI_MODEL := "Gemini-1.5-Pro", DEFAULT_TEMPERATURE := 7 / 10 }

/-- OpenAI API behaviour: every call succeeds with text "pong". -/
def oApiPong : OpenAIApi := fun _ => .ok ("pong", some 3)

/-- OpenAI API behaviour: every call succeeds with empty text. -/
def oApiEmpty : OpenAIApi := fun _ => .ok ("", some 1)

/-- OpenAI API behaviour: every call raises. -/
def oApiFail : OpenAIApi := fun _ => .error "APIConnectionError"

/-- Anthropic API behaviour: every call succeeds. -/
def cApiHi : AnthropicApi := fun _ => .ok ("hi from claude", 1, 2)

/-- Anthropic API behaviour: every call raises. -/
def cApiFail : AnthropicApi := fun _ => .error "APIConnectionError"

/-- Gemini API behaviour: every call succeeds. -/
def gApiHi : GeminiApi := fun _ => .ok "hi from gemini"

/-- Gemini API behaviour: every call raises. -/
def gApiFail : GeminiApi := fun _ => .error "PoeError"

/-- Synthesis call behaviour: succeeds. -/
def synthApiOk : SynthApi := fun _ => .ok "unified answer"

/-- A brain with all three providers configured, fresh state. -/
def brainAll : Brain :=
  { openaiClient := true, anthropicClient := true, poeAvailable := true,
    systemPrompt := "You are Vigil.", conversationHistory := [], responseCache := [] }

/-- A brain with only the Anthropic key configured (`OPENAI_API_KEY`
absent, so `self.openai_client is None`). -/
def brainClaudeOnly : Brain :=
  { openaiClient := false, anthropicClient := true, poeAvailable := false,
    systemPrompt := "You are Vigil.", conversationHistory := [], responseCache := [] }

/-- A 40-message history: the `max_messages` cap of `add_to_history`. -/
def msgsAtCap : List Message := List.replicate 40 { role := "assistant", content := "x" }

/-- A brain whose conversation history sits exactly at the 40-turn cap. -/
def brainAtCap : Brain :=
  { openaiClient := true, anthropicClient := true, poeAvailable := true,
    systemPrompt := "You are Vigil.", conversationHistory := msgsAtCap, responseCache := [] }

/-- An 11-message history: one past the cache freshness threshold. -/
def msgs11 : List Message := List.replicate 11 { role := "user", content := "x" }

/-- A brain whose conversation history is longer than the threshold. -/
def brainLong : Brain :=
  { openaiClient := true, anthropicClient := true, poeAvailable := true,
    systemPrompt := "You are Vigil.", conversationHistory := msgs11, responseCache := [] }

/-- A response cache filled to its 50-entry capacity. -/
def cache50 : List (Int × String) := (List.range 50).map (fun i => ((i : Int), "v"))

/-- A schedule of the two trinity worker tasks in which task 1 runs
between task 2's reset and task 2's append: legal for the thread pool,
since each task's own four steps stay in order. -/
def schedEx : List (Nat × TaskAction) :=
  [(2, .resetCopy), (1, .resetCopy), (1, .appendUser), (1, .sendRequest),
   (1, .appendAssistant), (2, .appendUser), (2, .sendRequest), (2, .appendAssistant)]

/-- The answers the two tasks' providers return in the schedule above. -/
def answersEx : Nat → String :=
  fun i => if i = 1 then "answer from GPT" else "answer from Claude"

/-! ### Basic lemmas about the embedded operations -/

theorem dictGet_dictSet_self (d : List (Int × String)) (k : Int) (v : String) :
    dictGet (dictSet d k v) k = some v := by
  induction d with
  | nil => simp [dictSet, dictGet]
  | cons hd tl ih =>
      obtain ⟨k1, v1⟩ := hd
      by_cases h : k1 = k
      · simp [dictSet, dictGet, h]
      · simp [dictSet, dictGet, h, ih]

theorem dictSet_length (d : List (Int × String)) (k : Int) (v : String) :
    (dictSet d k v).length ≤ d.length + 1 := by
  induction d with
  | nil => simp [dictSet]
  | cons hd tl ih =>
      obtain ⟨k1, v1⟩ := hd
      by_cases h : k1 = k
      · simp [dictSet, h]
      · simp only [dictSet, if_neg h, List.length_cons]
        omega

theorem cachePut_length (c : List (Int × String)) (k : Int) (v : String)
    (h : c.length ≤ MAX_RESPONSE_CACHE_SIZE) :
    (cachePut c k v).length ≤ MAX_RESPONSE_CACHE_SIZE := by
  simp only [MAX_RESPONSE_CACHE_SIZE] at h ⊢
  unfold cachePut
  simp only [MAX_RESPONSE_CACHE_SIZE]
  split
  · have h1 := dictSet_length c.tail k v
    have h2 : c.tail.length = c.length - 1 := by simp
    omega
  · have h1 := dictSet_length c k v
    omega

theorem Brain.addToHistory_length (b : Brain) (r c : String) :
    (b.addToHistory r c).conversationHistory.length
      = min (b.conversationHistory.length + 1) 40 := by
  simp only [Brain.addToHistory]
  split
  · simp only [List.length_drop, List.length_append, List.length_cons, List.length_nil]
    omega
  · rename_i hle
    simp only [List.length_append, List.length_cons, List.length_nil] at hle ⊢
    omega

@[simp] theorem Brain.addToHistory_openaiClient (b : Brain) (r c : String) :
    (b.addToHistory r c).openaiClient = b.openaiClient := rfl

@[simp] theorem Brain.addToHistory_anthropicClient (b : Brain) (r c : String) :
    (b.addToHistory r c).anthropicClient = b.anthropicClient := rfl

@[simp] theorem Brain.addToHistory_poeAvailable (b : Brain) (r c : String) :
    (b.addToHistory r c).poeAvailable = b.poeAvailable := rfl

@[simp] theorem Brain.addToHistory_systemPrompt (b : Brain) (r c : String) :
    (b.addToHistory r c).systemPrompt = b.systemPrompt := rfl

@[simp] theorem Brain.addToHistory_responseCache (b : Brain) (r c : String) :
    (b.addToHistory r c).responseCache = b.responseCache := rfl

theorem Brain.addToHistory_suffix (b : Brain) (r c : String) :
    (b.addToHistory r c).conversationHistory
      <:+ b.conversationHistory ++ [{ role := r, content := c }] := by
  simp only [Brain.addToHistory]
  split
  · exact List.drop_suffix _ _
  · exact List.suffix_refl _

theorem Brain.cacheResponse_conversationHistory (pyHash : String → Int) (b : Brain)
    (p r : String) :
    (b.cacheResponse pyHash p r).conversationHistory = b.conversationHistory := by
  unfold Brain.cacheResponse
  split
  · split <;> rfl
  · rfl

theorem Brain.cacheResponse_flags (pyHash : String → Int) (b : Brain) (p r : String) :
    (b.cacheResponse pyHash p r).openaiClient = b.openaiClient
    ∧ (b.cacheResponse pyHash p r).anthropicClient = b.anthropicClient
    ∧ (b.cacheResponse pyHash p r).poeAvailable = b.poeAvailable
    ∧ (b.cacheResponse pyHash p r).systemPrompt = b.systemPrompt := by
  unfold Brain.cacheResponse
  split
  · split <;> exact ⟨rfl, rfl, rfl, rfl⟩
  · exact ⟨rfl, rfl, rfl, rfl⟩

theorem Brain.popUserRollback_responseCache (b : Brain) :
    b.popUserRollback.responseCache = b.responseCache := by
  unfold Brain.popUserRollback
  split
  · split <;> rfl
  · rfl

theorem Brain.popUserRollback_flags (b : Brain) :
    b.popUserRollback.openaiClient = b.openaiClient
    ∧ b.popUserRollback.anthropicClient = b.anthropicClient
    ∧ b.popUserRollback.poeAvailable = b.poeAvailable
    ∧ b.popUserRollback.systemPrompt = b.systemPrompt := by
  unfold Brain.popUserRollback
  split
  · split <;> exact ⟨rfl, rfl, rfl, rfl⟩
  · exact ⟨rfl, rfl, rfl, rfl⟩

/-- Appending a user turn below the 40-turn cap and then rolling it back
returns the brain to exactly its previous state. -/
theorem Brain.rollback_append (b : Brain) (prompt : String)
    (h : b.conversationHistory.length < 40) :
    (b.addToHistory "user" prompt).popUserRollback = b := by
  have hlen : ¬ 40 < (b.conversationHistory ++ [({ role := "user", content := prompt } : Message)]).length := by
    simp only [List.length_append, List.length_cons, List.length_nil]
    omega
  unfold Brain.addToHistory Brain.popUserRollback
  simp only [if_neg hlen, List.getLast?_concat, List.dropLast_concat]
  rfl

theorem Brain.thinkWithOpenai_flags (cfg : LLMConfigModel) (pyHash : String → Int)
    (oApi : OpenAIApi) (b : Brain) (prompt : String) (t : Option Rat) (mt : Nat) :
    (b.thinkWithOpenai cfg pyHash oApi prompt t mt).brain.openaiClient = b.openaiClient
    ∧ (b.thinkWithOpenai cfg pyHash oApi prompt t mt).brain.anthropicClient = b.anthropicClient
    ∧ (b.thinkWithOpenai cfg pyHash oApi prompt t mt).brain.poeAvailable = b.poeAvailable
    ∧ (b.thinkWithOpenai cfg pyHash oApi prompt t mt).brain.systemPrompt = b.systemPrompt := by
  simp only [Brain.thinkWithOpenai]
  split
  · exact ⟨rfl, rfl, rfl, rfl⟩
  · split
    · exact ⟨rfl, rfl, rfl, rfl⟩
    · split
      · rename_i text usage heq
        have hc := Brain.cacheResponse_flags pyHash
          (((b.addToHistory "user" prompt)).addToHistory "assistant" text) prompt text
        simpa using hc
      · have hp := Brain.popUserRollback_flags (b.addToHistory "user" prompt)
        simpa using hp

theorem Brain.thinkWithClaude_flags (cfg : LLMConfigModel) (cApi : AnthropicApi)
    (b : Brain) (prompt : String) (t : Option Rat) (mt : Nat) :
    (b.thinkWithClaude cfg cApi prompt t mt).brain.openaiClient = b.openaiClient
    ∧ (b.thinkWithClaude cfg cApi prompt t mt).brain.anthropicClient = b.anthropicClient
    ∧ (b.thinkWithClaude cfg cApi prompt t mt).brain.poeAvailable = b.poeAvailable
    ∧ (b.thinkWithClaude cfg cApi prompt t mt).brain.systemPrompt = b.systemPrompt := by
  simp only [Brain.thinkWithClaude]
  split
  · exact ⟨rfl, rfl, rfl, rfl⟩
  · split
    · exact ⟨rfl, rfl, rfl, rfl⟩
    · have hp := Brain.popUserRollback_flags (b.addToHistory "user" prompt)
      simpa using hp

theorem Brain.thinkWithGemini_flags (cfg : LLMConfigModel) (gApi : GeminiApi)
    (fp : Bool) (b : Brain) (prompt : String) (t : Option Rat) :
    (b.thinkWithGemini cfg gApi fp prompt t).brain.openaiClient = b.openaiClient
    ∧ (b.thinkWithGemini cfg gApi fp prompt t).brain.anthropicClient = b.anthropicClient
    ∧ (b.thinkWithGemini cfg gApi fp prompt t).brain.poeAvailable = b.poeAvailable
    ∧ (b.thinkWithGemini cfg gApi fp prompt t).brain.systemPrompt = b.systemPrompt := by
  simp only [Brain.thinkWithGemini]
  split
  · exact ⟨rfl, rfl, rfl, rfl⟩
  · split
    · exact ⟨rfl, rfl, rfl, rfl⟩
    · split
      · exact ⟨rfl, rfl, rfl, rfl⟩
      · have hp := Brain.popUserRollback_flags (b.addToHistory "user" prompt)
        simpa using hp

theorem Brain.thinkWithClaude_responseCache (cfg : LLMConfigModel) (cApi : AnthropicApi)
    (b : Brain) (prompt : String) (t : Option Rat) (mt : Nat) :
    (b.thinkWithClaude cfg cApi prompt t mt).brain.responseCache = b.responseCache := by
  simp only [Brain.thinkWithClaude]
  split
  · rfl
  · split
    · rfl
    · have hp := Brain.popUserRollback_responseCache (b.addToHistory "user" prompt)
      simpa using hp

theorem Brain.thinkWithGemini_responseCache (cfg : LLMConfigModel) (gApi : GeminiApi)
    (fp : Bool) (b : Brain) (prompt : String) (t : Option Rat) :
    (b.thinkWithGemini cfg gApi fp prompt t).brain.responseCache = b.responseCache := by
  simp only [Brain.thinkWithGemini]
  split
  · rfl
  · split
    · rfl
    · split
      · rfl
      · have hp := Brain.popUserRollback_responseCache (b.addToHistory "user" prompt)
        simpa using hp

theorem Brain.cacheKey_none_of_long (pyHash : String → Int) (b : Brain) (prompt : String)
    (h : CACHE_HISTORY_THRESHOLD < b.conversationHistory.length) :
    b.cacheKey pyHash prompt = none := by
  unfold Brain.cacheKey
  exact if_pos h

theorem Brain.getCachedResponse_none_of_long (pyHash : String → Int) (b : Brain)
    (prompt : String) (h : CACHE_HISTORY_THRESHOLD < b.conversationHistory.length) :
    b.getCachedResponse pyHash prompt = none := by
  unfold Brain.getCachedResponse
  rw [Brain.cacheKey_none_of_long pyHash b prompt h]

theorem Brain.cacheResponse_of_long (pyHash : String → Int) (b : Brain) (p r : String)
    (h : CACHE_HISTORY_THRESHOLD < b.conversationHistory.length) :
    b.cacheResponse pyHash p r = b := by
  unfold Brain.cacheResponse
  rw [Brain.cacheKey_none_of_long pyHash b p h]

theorem Brain.addToHistory_length_lower (b : Brain) (r c : String)
    (h : CACHE_HISTORY_THRESHOLD < b.conversationHistory.length) :
    CACHE_HISTORY_THRESHOLD < (b.addToHistory r c).conversationHistory.length := by
  rw [Brain.addToHistory_length]
  simp only [CACHE_HISTORY_THRESHOLD] at h ⊢
  omega

theorem isSuffix_append_same {l1 l2 : List Message} (t : List Message) (h : l1 <:+ l2) :
    l1 ++ t <:+ l2 ++ t := by
  obtain ⟨w, hw⟩ := h
  exact ⟨w, by rw [← hw, List.append_assoc]⟩

/-- C6: after any sequence of `add_to_history` appends starting from a
history within the 40-turn cap, the history length never exceeds 40 — it
equals `min (start + number of appends) 40` — and the final history is a
suffix of the original history followed by all appended turns: the oldest
turns are dropped from the front, preserving the most recent window. -/
theorem history_capped_most_recent_window (b : Brain) (ops : List (String × String))
    (h : b.conversationHistory.length ≤ 40) :
    (b.applyAppends ops).conversationHistory.length ≤ 40
    ∧ (b.applyAppends ops).conversationHistory.length
        = min (b.conversationHistory.length + ops.length) 40
    ∧ (b.applyAppends ops).conversationHistory
        <:+ b.conversationHistory
              ++ ops.map (fun op => { role := op.1, content := op.2 }) := by
  induction ops generalizing b with
  | nil =>
      refine ⟨h, ?_, ?_⟩
      · simp only [Brain.applyAppends, List.foldl_nil, List.length_nil]
        omega
      · simp [Brain.applyAppends]
  | cons op rest ih =>
      have hstep := Brain.addToHistory_length b op.1 op.2
      have hle : (b.addToHistory op.1 op.2).conversationHistory.length ≤ 40 := by omega
      obtain ⟨ih1, ih2, ih3⟩ := ih (b.addToHistory op.1 op.2) hle
      have happly : b.applyAppends (op :: rest)
          = (b.addToHistory op.1 op.2).applyAppends rest := rfl
      refine ⟨by rw [happly]; exact ih1, ?_, ?_⟩
      · rw [happly, ih2, hstep]
        simp only [List.length_cons]
        omega
      · rw [happly]
        have hsuf : (b.addToHistory op.1 op.2).conversationHistory
              ++ rest.map (fun op => ({ role := op.1, content := op.2 } : Message))
            <:+ (b.conversationHistory ++ [{ role := op.1, content := op.2 }])
              ++ rest.map (fun op => { role := op.1, content := op.2 }) :=
          isSuffix_append_same _ (Brain.addToHistory_suffix b op.1 op.2)
        have htr := ih3.trans hsuf
        simpa [List.append_assoc] using htr

/-- C6 witness: two appends onto a fresh brain. -/
theorem history_capped_most_recent_window_witness :
    (brainAll.applyAppends [("user", "hi"), ("assistant", "hello")]).conversationHistory.length ≤ 40
    ∧ (brainAll.applyAppends [("user", "hi"), ("assistant", "hello")]).conversationHistory.length
        = min (brainAll.conversationHistory.length + [("user", "hi"), ("assistant", "hello")].length) 40
    ∧ (brainAll.applyAppends [("user", "hi"), ("assistant", "hello")]).conversationHistory
        <:+ brainAll.conversationHistory
              ++ [("user", "hi"), ("assistant", "hello")].map
                   (fun op => { role := op.1, content := op.2 }) :=
  history_capped_most_recent_window brainAll [("user", "hi"), ("assistant", "hello")]
    (by decide)

/-- C7: after any sequence of cache insertions starting within capacity the
cache never exceeds `MAX_RESPONSE_CACHE_SIZE` entries, and an insertion
performed exactly at capacity first evicts the earliest-inserted entry (the
head of the insertion-ordered dict) and then stores the new entry, which is
present afterwards. -/
theorem cache_capacity_fifo (cache : List (Int × String)) (ops : List (Int × String))
    (k : Int) (v : String) (h : cache.length ≤ MAX_RESPONSE_CACHE_SIZE) :
    (applyCachePuts cache ops).length ≤ MAX_RESPONSE_CACHE_SIZE
    ∧ (cache.length = MAX_RESPONSE_CACHE_SIZE →
        cachePut cache k v = dictSet cache.tail k v
        ∧ dictGet (cachePut cache k v) k = some v) := by
  constructor
  · induction ops generalizing cache with
    | nil => simpa [applyCachePuts] using h
    | cons op rest ih =>
        have h1 := cachePut_length cache op.1 op.2 h
        have happly : applyCachePuts cache (op :: rest)
            = applyCachePuts (cachePut cache op.1 op.2) rest := rfl
        rw [happly]
        exact ih _ h1
  · intro hcap
    constructor
    · unfold cachePut
      rw [if_pos (le_of_eq hcap.symm)]
    · unfold cachePut
      rw [if_pos (le_of_eq hcap.symm)]
      exact dictGet_dictSet_self _ k v

/-- C7 witness: one insertion into a cache already holding 50 entries. -/
theorem cache_capacity_fifo_witness :
    (applyCachePuts cache50 [(100, "a")]).length ≤ MAX_RESPONSE_CACHE_SIZE
    ∧ (cachePut cache50 100 "a" = dictSet cache50.tail 100 "a"
       ∧ dictGet (cachePut cache50 100 "a") 100 = some "a") :=
  ⟨(cache_capacity_fifo cache50 [(100, "a")] 100 "a" (by decide)).1,
   (cache_capacity_fifo cache50 [(100, "a")] 100 "a" (by decide)).2 (by decide)⟩

/-- C10: an explicit temperature of `0.0` is falsy in Python, so
`temperature or DEFAULT_TEMPERATURE` selects the configured default and
every single-provider generation behaves exactly as if temperature had
been omitted; in particular the OpenAI request issued for `0.0` is the
request issued for the configured default temperature. -/
theorem zero_temperature_behaves_as_omitted (cfg : LLMConfigModel) (pyHash : String → Int)
    (oApi : OpenAIApi) (cApi : AnthropicApi) (gApi : GeminiApi) (fpInstalled : Bool)
    (b : Brain) (prompt : String) (pref : Option Provider) (mt : Nat) :
    b.thinkWithOpenai cfg pyHash oApi prompt (some 0) mt
        = b.thinkWithOpenai cfg pyHash oApi prompt none mt
    ∧ b.thinkWithOpenai cfg pyHash oApi prompt (some 0) mt
        = b.thinkWithOpenai cfg pyHash oApi prompt (some cfg.DEFAULT_TEMPERATURE) mt
    ∧ b.thinkWithClaude cfg cApi prompt (some 0) mt
        = b.thinkWithClaude cfg cApi prompt none mt
    ∧ b.thinkWithGemini cfg gApi fpInstalled prompt (some 0)
        = b.thinkWithGemini cfg gApi fpInstalled prompt none
    ∧ b.think cfg pyHash oApi cApi gApi fpInstalled prompt pref (some 0)
        = b.think cfg pyHash oApi cApi gApi fpInstalled prompt pref none := by
  have h0 : pyOrTemp (some 0) cfg.DEFAULT_TEMPERATURE
      = pyOrTemp none cfg.DEFAULT_TEMPERATURE := by
    simp [pyOrTemp]
  have hd : pyOrTemp (some 0) cfg.DEFAULT_TEMPERATURE
      = pyOrTemp (some cfg.DEFAULT_TEMPERATURE) cfg.DEFAULT_TEMPERATURE := by
    simp [pyOrTemp]
  have ho : ∀ (bb : Brain) (t1 t2 : Option Rat) (m : Nat),
      pyOrTemp t1 cfg.DEFAULT_TEMPERATURE = pyOrTemp t2 cfg.DEFAULT_TEMPERATURE →
      bb.thinkWithOpenai cfg pyHash oApi prompt t1 m
        = bb.thinkWithOpenai cfg pyHash oApi prompt t2 m := by
    intro bb t1 t2 m hEq
    unfold Brain.thinkWithOpenai
    rw [hEq]
  have hc : ∀ (bb : Brain) (t1 t2 : Option Rat) (m : Nat),
      bb.thinkWithClaude cfg cApi prompt t1 m = bb.thinkWithClaude cfg cApi prompt t2 m :=
    fun _ _ _ _ => rfl
  have hg : ∀ (bb : Brain) (t1 t2 : Option Rat),
      bb.thinkWithGemini cfg gApi fpInstalled prompt t1
        = bb.thinkWithGemini cfg gApi fpInstalled prompt t2 :=
    fun _ _ _ => rfl
  refine ⟨ho b (some 0) none mt h0, ho b (some 0) (some cfg.DEFAULT_TEMPERATURE) mt hd,
          hc b (some 0) none mt, hg b (some 0) none, ?_⟩
  cases pref with
  | some p =>
      cases p with
      | openai =>
          simp only [Brain.think]
          exact ho b (some 0) none 2000 h0
      | anthropic =>
          simp only [Brain.think]
          exact hc b (some 0) none 2000
      | poe =>
          simp only [Brain.think]
          exact hg b (some 0) none
  | none =>
      simp only [Brain.think]
      rw [ho b (some 0) none 2000 h0]
      rw [hc (b.thinkWithOpenai cfg pyHash oApi prompt none 2000).brain (some 0) none 2000]
      rw [hg ((b.thinkWithOpenai cfg pyHash oApi prompt none 2000).brain.thinkWithClaude
            cfg cApi prompt none 2000).brain (some 0) none]

theorem Brain.thinkWithOpenai_responseCache_of_long (cfg : LLMConfigModel)
    (pyHash : String → Int) (oApi : OpenAIApi) (b : Brain) (prompt : String)
    (t : Option Rat) (mt : Nat)
    (h : CACHE_HISTORY_THRESHOLD < b.conversationHistory.length) :
    (b.thinkWithOpenai cfg pyHash oApi prompt t mt).brain.responseCache
      = b.responseCache := by
  have hmiss := Brain.getCachedResponse_none_of_long pyHash b prompt h
  simp only [Brain.thinkWithOpenai, hmiss, pyTruthyOptStr, Bool.false_eq_true, if_false]
  split
  · rfl
  · split
    · rename_i text usage heq
      have h2 : CACHE_HISTORY_THRESHOLD
          < ((b.addToHistory "user" prompt).addToHistory "assistant" text).conversationHistory.length :=
        Brain.addToHistory_length_lower _ _ _ (Brain.addToHistory_length_lower _ _ _ h)
      rw [Brain.cacheResponse_of_long _ _ _ _ h2]
      simp
    · rw [Brain.popUserRollback_responseCache]
      simp

/-- C8: when the conversation history is longer than the 10-turn freshness
threshold, `respond` neither consults the cache (the lookup short-circuits
to `None`, so no hit is possible whatever the cache holds) nor populates
it (the response cache is unchanged by the whole routed call, whatever the
provider outcomes). -/
theorem long_history_bypasses_cache (cfg : LLMConfigModel) (pyHash : String → Int)
    (oApi : OpenAIApi) (cApi : AnthropicApi) (gApi : GeminiApi) (fpInstalled : Bool)
    (b : Brain) (prompt : String) (pref : Option Provider) (temp : Option Rat)
    (h : CACHE_HISTORY_THRESHOLD < b.conversationHistory.length) :
    b.getCachedResponse pyHash prompt = none
    ∧ (b.think cfg pyHash oApi cApi gApi fpInstalled prompt pref temp).brain.responseCache
        = b.responseCache := by
  refine ⟨Brain.getCachedResponse_none_of_long pyHash b prompt h, ?_⟩
  cases pref with
  | some p =>
      cases p with
      | openai =>
          exact Brain.thinkWithOpenai_responseCache_of_long cfg pyHash oApi b prompt temp 2000 h
      | anthropic =>
          exact Brain.thinkWithClaude_responseCache cfg cApi b prompt temp 2000
      | poe =>
          exact Brain.thinkWithGemini_responseCache cfg gApi fpInstalled b prompt temp
  | none =>
      simp only [Brain.think]
      split
      · exact Brain.thinkWithOpenai_responseCache_of_long cfg pyHash oApi b prompt temp 2000 h
      · split
        · calc ((b.thinkWithOpenai cfg pyHash oApi prompt temp 2000).brain.thinkWithClaude
                  cfg cApi prompt temp 2000).brain.responseCache
              = (b.thinkWithOpenai cfg pyHash oApi prompt temp 2000).brain.responseCache :=
                Brain.thinkWithClaude_responseCache _ _ _ _ _ _
            _ = b.responseCache :=
                Brain.thinkWithOpenai_responseCache_of_long cfg pyHash oApi b prompt temp 2000 h
        · calc (((b.thinkWithOpenai cfg pyHash oApi prompt temp 2000).brain.thinkWithClaude
                    cfg cApi prompt temp 2000).brain.thinkWithGemini
                  cfg gApi fpInstalled prompt temp).brain.responseCache
              = ((b.thinkWithOpenai cfg pyHash oApi prompt temp 2000).brain.thinkWithClaude
                    cfg cApi prompt temp 2000).brain.responseCache :=
                Brain.thinkWithGemini_responseCache _ _ _ _ _ _
            _ = (b.thinkWithOpenai cfg pyHash oApi prompt temp 2000).brain.responseCache :=
                Brain.thinkWithClaude_responseCache _ _ _ _ _ _
            _ = b.responseCache :=
                Brain.thinkWithOpenai_responseCache_of_long cfg pyHash oApi b prompt temp 2000 h

/-- C8 witness: an 11-turn conversation bypasses the cache on a routed
call that succeeds at the first provider. -/
theorem long_history_bypasses_cache_witness :
    brainLong.getCachedResponse pyHashModel "ping" = none
    ∧ (brainLong.think cfg0 pyHashModel oApiPong cApiHi gApiHi true "ping" none
         none).brain.responseCache = brainLong.responseCache :=
  long_history_bypasses_cache cfg0 pyHashModel oApiPong cApiHi gApiHi true brainLong
    "ping" none none (by decide)

/-- C3 (amended): below the 40-turn cap, a failed single-provider attempt
rolls the just-appended user turn back so the brain — history included —
is exactly its pre-call state, and a routed call in which every provider
fails returns no response and leaves the brain exactly unchanged.  (At the
cap the claim fails: the append first truncates the oldest turn, so the
rollback leaves the history one turn shorter — see the counterexample.) -/
theorem failed_attempts_restore_history (cfg : LLMConfigModel) (pyHash : String → Int)
    (oApi : OpenAIApi) (cApi : AnthropicApi) (gApi : GeminiApi) (fpInstalled : Bool)
    (b : Brain) (prompt : String) (temp : Option Rat)
    (hlen : b.conversationHistory.length < 40)
    (hmiss : pyTruthyOptStr (b.getCachedResponse pyHash prompt) = false)
    (ho : ∀ q, (oApi q).isOk = false)
    (hc : ∀ q, (cApi q).isOk = false)
    (hg : ∀ q, (gApi q).isOk = false) :
    (b.thinkWithOpenai cfg pyHash oApi prompt temp 2000).brain = b
    ∧ (b.thinkWithOpenai cfg pyHash oApi prompt temp 2000).response = none
    ∧ (b.think cfg pyHash oApi cApi gApi fpInstalled prompt none temp).response = none
    ∧ (b.think cfg pyHash oApi cApi gApi fpInstalled prompt none temp).brain = b := by
  have openaiFail : (b.thinkWithOpenai cfg pyHash oApi prompt temp 2000).brain = b
      ∧ (b.thinkWithOpenai cfg pyHash oApi prompt temp 2000).response = none := by
    simp only [Brain.thinkWithOpenai, hmiss, Bool.false_eq_true, if_false]
    split
    · exact ⟨rfl, rfl⟩
    · split
      · rename_i text usage heq
        have hbad := ho (OpenAIRequest.mk cfg.PRIMARY_MODEL
          ((b.addToHistory "user" prompt).formatMessagesOpenai)
          (pyOrTemp temp cfg.DEFAULT_TEMPERATURE) 2000)
        rw [heq] at hbad
        simp [Except.isOk, Except.toBool] at hbad
      · exact ⟨Brain.rollback_append b prompt hlen, rfl⟩
  have claudeFail : (b.thinkWithClaude cfg cApi prompt temp 2000).brain = b
      ∧ (b.thinkWithClaude cfg cApi prompt temp 2000).response = none := by
    simp only [Brain.thinkWithClaude]
    split
    · exact ⟨rfl, rfl⟩
    · split
      · rename_i text inTok outTok heq
        have hbad := hc (AnthropicRequest.mk cfg.CLAUDE_MODEL 2000
          ((b.addToHistory "user" prompt).formatMessagesAnthropic.1)
          ((b.addToHistory "user" prompt).formatMessagesAnthropic.2))
        rw [heq] at hbad
        simp [Except.isOk, Except.toBool] at hbad
      · exact ⟨Brain.rollback_append b prompt hlen, rfl⟩
  have geminiFail : (b.thinkWithGemini cfg gApi fpInstalled prompt temp).brain = b
      ∧ (b.thinkWithGemini cfg gApi fpInstalled prompt temp).response = none := by
    simp only [Brain.thinkWithGemini]
    split
    · exact ⟨rfl, rfl⟩
    · split
      · exact ⟨rfl, rfl⟩
      · split
        · rename_i text heq
          have hbad := hg (GeminiRequest.mk
            ({ role := "system", content := b.systemPrompt }
              :: (b.addToHistory "user" prompt).conversationHistory)
            cfg.GEMINI_MODEL)
          rw [heq] at hbad
          simp [Except.isOk, Except.toBool] at hbad
        · exact ⟨Brain.rollback_append b prompt hlen, rfl⟩
  refine ⟨openaiFail.1, openaiFail.2, ?_, ?_⟩
  · simp only [Brain.think, openaiFail.1, openaiFail.2, Option.isSome_none,
      Bool.false_eq_true, if_false, claudeFail.1, claudeFail.2, geminiFail.1, geminiFail.2]
  · simp only [Brain.think, openaiFail.1, openaiFail.2, Option.isSome_none,
      Bool.false_eq_true, if_false, claudeFail.1, claudeFail.2, geminiFail.1, geminiFail.2]

/-- C3 witness: all three providers raising on a fresh brain leaves the
brain exactly unchanged and yields no response. -/
theorem failed_attempts_restore_history_witness :
    (brainAll.thinkWithOpenai cfg0 pyHashModel oApiFail "hi" none 2000).brain = brainAll
    ∧ (brainAll.thinkWithOpenai cfg0 pyHashModel oApiFail "hi" none 2000).response = none
    ∧ (brainAll.think cfg0 pyHashModel oApiFail cApiFail gApiFail true "hi" none none).response
        = none
    ∧ (brainAll.think cfg0 pyHashModel oApiFail cApiFail gApiFail true "hi" none none).brain
        = brainAll :=
  failed_attempts_restore_history cfg0 pyHashModel oApiFail cApiFail gApiFail true brainAll
    "hi" none (by decide) (by decide) (fun _ => rfl) (fun _ => rfl) (fun _ => rfl)

/-- C3 counterexample: with the history at the 40-turn cap, appending the
prompt truncates the oldest turn before the attempt fails, so the rollback
leaves 39 turns — not the pre-call 40 the claim requires. -/
theorem rollback_at_cap_loses_oldest_turn :
    brainAtCap.conversationHistory.length = 40
    ∧ (brainAtCap.thinkWithOpenai cfg0 pyHashModel oApiFail "hello" none 2000).response = none
    ∧ (brainAtCap.thinkWithOpenai cfg0 pyHashModel oApiFail "hello" none
         2000).brain.conversationHistory.length = 39 := by
  decide

theorem except_isOk_false {e a : Type} {x : Except e a} (h : x.isOk = false) :
    ∃ err, x = .error err := by
  cases x with
  | ok v => simp [Except.isOk, Except.toBool] at h
  | error err => exact ⟨err, rfl⟩

theorem except_isOk_true {e a : Type} {x : Except e a} (h : x.isOk = true) :
    ∃ v, x = .ok v := by
  cases x with
  | ok v => exact ⟨v, rfl⟩
  | error err => simp [Except.isOk, Except.toBool] at h

theorem Brain.thinkWithOpenai_fail_eq (cfg : LLMConfigModel) (pyHash : String → Int)
    (oApi : OpenAIApi) (b : Brain) (prompt : String) (temp : Option Rat) (mt : Nat)
    (hO : b.openaiClient = true)
    (hmiss : pyTruthyOptStr (b.getCachedResponse pyHash prompt) = false)
    (ho : ∀ q, (oApi q).isOk = false) :
    b.thinkWithOpenai cfg pyHash oApi prompt temp mt
      = ⟨(b.addToHistory "user" prompt).popUserRollback, none,
         [AdapterRequest.openai (OpenAIRequest.mk cfg.PRIMARY_MODEL
            ((b.addToHistory "user" prompt).formatMessagesOpenai)
            (pyOrTemp temp cfg.DEFAULT_TEMPERATURE) mt)]⟩ := by
  obtain ⟨err, herr⟩ := except_isOk_false (ho (OpenAIRequest.mk cfg.PRIMARY_MODEL
    ((b.addToHistory "user" prompt).formatMessagesOpenai)
    (pyOrTemp temp cfg.DEFAULT_TEMPERATURE) mt))
  simp only [Brain.thinkWithOpenai, hmiss, Bool.false_eq_true, if_false, hO,
    Bool.not_true, herr]

theorem Brain.thinkWithClaude_fail_eq (cfg : LLMConfigModel) (cApi : AnthropicApi)
    (b : Brain) (prompt : String) (temp : Option Rat) (mt : Nat)
    (hA : b.anthropicClient = true)
    (hc : ∀ q, (cApi q).isOk = false) :
    b.thinkWithClaude cfg cApi prompt temp mt
      = ⟨(b.addToHistory "user" prompt).popUserRollback, none,
         [AdapterRequest.anthropic (AnthropicRequest.mk cfg.CLAUDE_MODEL mt
            ((b.addToHistory "user" prompt).formatMessagesAnthropic.1)
            ((b.addToHistory "user" prompt).formatMessagesAnthropic.2))]⟩ := by
  obtain ⟨err, herr⟩ := except_isOk_false (hc (AnthropicRequest.mk cfg.CLAUDE_MODEL mt
    ((b.addToHistory "user" prompt).formatMessagesAnthropic.1)
    ((b.addToHistory "user" prompt).formatMessagesAnthropic.2)))
  simp only [Brain.thinkWithClaude, hA, Bool.not_true, Bool.false_eq_true, if_false, herr]

theorem Brain.thinkWithGemini_fail_eq (cfg : LLMConfigModel) (gApi : GeminiApi)
    (b : Brain) (prompt : String) (temp : Option Rat)
    (hP : b.poeAvailable = true)
    (hg : ∀ q, (gApi q).isOk = false) :
    b.thinkWithGemini cfg gApi true prompt temp
      = ⟨(b.addToHistory "user" prompt).popUserRollback, none,
         [AdapterRequest.gemini (GeminiRequest.mk
            ({ role := "system", content := b.systemPrompt }
              :: (b.addToHistory "user" prompt).conversationHistory)
            cfg.GEMINI_MODEL)]⟩ := by
  obtain ⟨err, herr⟩ := except_isOk_false (hg (GeminiRequest.mk
    ({ role := "system", content := b.systemPrompt }
      :: (b.addToHistory "user" prompt).conversationHistory)
    cfg.GEMINI_MODEL))
  simp only [Brain.thinkWithGemini, hP, Bool.not_true, Bool.false_eq_true, if_false,
    Bool.not_false, herr]

theorem Brain.thinkWithOpenai_succeeds (cfg : LLMConfigModel) (pyHash : String → Int)
    (oApi : OpenAIApi) (b : Brain) (prompt : String) (temp : Option Rat) (mt : Nat)
    (hO : b.openaiClient = true)
    (hmiss : pyTruthyOptStr (b.getCachedResponse pyHash prompt) = false)
    (hok : ∀ q, (oApi q).isOk = true) :
    (b.thinkWithOpenai cfg pyHash oApi prompt temp mt).response.isSome = true
    ∧ (b.thinkWithOpenai cfg pyHash oApi prompt temp mt).requests.map
        AdapterRequest.provider = [Provider.openai] := by
  obtain ⟨v, hv⟩ := except_isOk_true (hok (OpenAIRequest.mk cfg.PRIMARY_MODEL
    ((b.addToHistory "user" prompt).formatMessagesOpenai)
    (pyOrTemp temp cfg.DEFAULT_TEMPERATURE) mt))
  obtain ⟨text, usage⟩ := v
  simp only [Brain.thinkWithOpenai, hmiss, Bool.false_eq_true, if_false, hO,
    Bool.not_true, hv]
  exact ⟨rfl, rfl⟩

theorem Brain.thinkWithClaude_succeeds (cfg : LLMConfigModel) (cApi : AnthropicApi)
    (b : Brain) (prompt : String) (temp : Option Rat) (mt : Nat)
    (hA : b.anthropicClient = true)
    (hok : ∀ q, (cApi q).isOk = true) :
    (b.thinkWithClaude cfg cApi prompt temp mt).response.isSome = true
    ∧ (b.thinkWithClaude cfg cApi prompt temp mt).requests.map
        AdapterRequest.provider = [Provider.anthropic] := by
  obtain ⟨v, hv⟩ := except_isOk_true (hok (AnthropicRequest.mk cfg.CLAUDE_MODEL mt
    ((b.addToHistory "user" prompt).formatMessagesAnthropic.1)
    ((b.addToHistory "user" prompt).formatMessagesAnthropic.2)))
  obtain ⟨text, inTok, outTok⟩ := v
  simp only [Brain.thinkWithClaude, hA, Bool.not_true, Bool.false_eq_true, if_false, hv]
  exact ⟨rfl, rfl⟩

theorem Brain.thinkWithGemini_succeeds (cfg : LLMConfigModel) (gApi : GeminiApi)
    (b : Brain) (prompt : String) (temp : Option Rat)
    (hP : b.poeAvailable = true)
    (hok : ∀ q, (gApi q).isOk = true) :
    (b.thinkWithGemini cfg gApi true prompt temp).response.isSome = true
    ∧ (b.thinkWithGemini cfg gApi true prompt temp).requests.map
        AdapterRequest.provider = [Provider.poe] := by
  obtain ⟨text, hv⟩ := except_isOk_true (hok (GeminiRequest.mk
    ({ role := "system", content := b.systemPrompt }
      :: (b.addToHistory "user" prompt).conversationHistory)
    cfg.GEMINI_MODEL))
  simp only [Brain.thinkWithGemini, hP, Bool.not_true, Bool.false_eq_true, if_false,
    Bool.not_false, hv]
  exact ⟨rfl, rfl⟩

/-- C2 (amended): with all three providers configured, a cache miss and a
history below the cap, `think` with no preference tries OpenAI, then
Anthropic, then Gemini; it moves to the next provider exactly when the
previous attempt returned no response (a raised error — an `LLMResponse`
object is always truthy in Python, so an empty answer text does NOT move
routing onward, contrary to the original claim); it returns the first
attempt that produced a response; and when every provider fails it
returns a failure after issuing exactly one request to each provider, in
priority order. -/
theorem fallback_priority_order (cfg : LLMConfigModel) (pyHash : String → Int)
    (oFail oOk : OpenAIApi) (cFail cOk : AnthropicApi) (gFail gOk : GeminiApi)
    (b : Brain) (prompt : String) (temp : Option Rat)
    (hO : b.openaiClient = true) (hA : b.anthropicClient = true)
    (hP : b.poeAvailable = true)
    (hlen : b.conversationHistory.length < 40)
    (hmiss : pyTruthyOptStr (b.getCachedResponse pyHash prompt) = false)
    (hoF : ∀ q, (oFail q).isOk = false) (hcF : ∀ q, (cFail q).isOk = false)
    (hgF : ∀ q, (gFail q).isOk = false)
    (hoOk : ∀ q, (oOk q).isOk = true) (hcOk : ∀ q, (cOk q).isOk = true)
    (hgOk : ∀ q, (gOk q).isOk = true) :
    (b.think cfg pyHash oFail cFail gFail true prompt none temp).response = none
    ∧ (b.think cfg pyHash oFail cFail gFail true prompt none temp).requests.map
        AdapterRequest.provider = [Provider.openai, Provider.anthropic, Provider.poe]
    ∧ (b.think cfg pyHash oOk cFail gFail true prompt none temp)
        = b.thinkWithOpenai cfg pyHash oOk prompt temp 2000
    ∧ (b.think cfg pyHash oOk cFail gFail true prompt none temp).response.isSome = true
    ∧ (b.think cfg pyHash oOk cFail gFail true prompt none temp).requests.map
        AdapterRequest.provider = [Provider.openai]
    ∧ (b.think cfg pyHash oFail cOk gFail true prompt none temp).response
        = (b.thinkWithClaude cfg cOk prompt temp 2000).response
    ∧ (b.think cfg pyHash oFail cOk gFail true prompt none temp).response.isSome = true
    ∧ (b.think cfg pyHash oFail cOk gFail true prompt none temp).requests.map
        AdapterRequest.provider = [Provider.openai, Provider.anthropic]
    ∧ (b.think cfg pyHash oFail cFail gOk true prompt none temp).response
        = (b.thinkWithGemini cfg gOk true prompt temp).response
    ∧ (b.think cfg pyHash oFail cFail gOk true prompt none temp).response.isSome = true
    ∧ (b.think cfg pyHash oFail cFail gOk true prompt none temp).requests.map
        AdapterRequest.provider
        = [Provider.openai, Provider.anthropic, Provider.poe] := by
  have e1 : b.thinkWithOpenai cfg pyHash oFail prompt temp 2000
      = ⟨b, none, [AdapterRequest.openai (OpenAIRequest.mk cfg.PRIMARY_MODEL
          ((b.addToHistory "user" prompt).formatMessagesOpenai)
          (pyOrTemp temp cfg.DEFAULT_TEMPERATURE) 2000)]⟩ := by
    rw [Brain.thinkWithOpenai_fail_eq cfg pyHash oFail b prompt temp 2000 hO hmiss hoF,
      Brain.rollback_append b prompt hlen]
  have e2 : b.thinkWithClaude cfg cFail prompt temp 2000
      = ⟨b, none, [AdapterRequest.anthropic (AnthropicRequest.mk cfg.CLAUDE_MODEL 2000
          ((b.addToHistory "user" prompt).formatMessagesAnthropic.1)
          ((b.addToHistory "user" prompt).formatMessagesAnthropic.2))]⟩ := by
    rw [Brain.thinkWithClaude_fail_eq cfg cFail b prompt temp 2000 hA hcF,
      Brain.rollback_append b prompt hlen]
  have e3 : b.thinkWithGemini cfg gFail true prompt temp
      = ⟨b, none, [AdapterRequest.gemini (GeminiRequest.mk
          ({ role := "system", content := b.systemPrompt }
            :: (b.addToHistory "user" prompt).conversationHistory)
          cfg.GEMINI_MODEL)]⟩ := by
    rw [Brain.thinkWithGemini_fail_eq cfg gFail b prompt temp hP hgF,
      Brain.rollback_append b prompt hlen]
  obtain ⟨sOk1, sOk2⟩ := Brain.thinkWithOpenai_succeeds cfg pyHash oOk b prompt temp 2000
    hO hmiss hoOk
  obtain ⟨sC1, sC2⟩ := Brain.thinkWithClaude_succeeds cfg cOk b prompt temp 2000 hA hcOk
  obtain ⟨sG1, sG2⟩ := Brain.thinkWithGemini_succeeds cfg gOk b prompt temp hP hgOk
  refine ⟨?_, ?_, ?_, ?_, ?_, ?_, ?_, ?_, ?_, ?_, ?_⟩
  · simp [Brain.think, e1, e2, e3]
  · simp [Brain.think, e1, e2, e3, AdapterRequest.provider]
  · simp [Brain.think, sOk1]
  · simp [Brain.think, sOk1]
  · simp [Brain.think, sOk1]
    exact sOk2
  · simp [Brain.think, e1, sC1]
  · simp [Brain.think, e1, sC1]
  · simp [Brain.think, e1, sC1, sC2, AdapterRequest.provider]
  · simp [Brain.think, e1, e2, sG1]
  · simp [Brain.think, e1, e2, sG1]
  · simp [Brain.think, e1, e2, sG1, sG2, AdapterRequest.provider]

/-- C2 witness: concrete all-fail routing and a concrete first-provider
success, on a fresh brain. -/
theorem fallback_priority_order_witness :
    (brainAll.think cfg0 pyHashModel oApiFail cApiFail gApiFail true "route" none
        none).response = none
    ∧ (brainAll.think cfg0 pyHashModel oApiFail cApiFail gApiFail true "route" none
        none).requests.map AdapterRequest.provider
        = [Provider.openai, Provider.anthropic, Provider.poe]
    ∧ (brainAll.think cfg0 pyHashModel oApiPong cApiFail gApiFail true "route" none none)
        = brainAll.thinkWithOpenai cfg0 pyHashModel oApiPong "route" none 2000 :=
  ⟨(fallback_priority_order cfg0 pyHashModel oApiFail oApiPong cApiFail cApiHi gApiFail
      gApiHi brainAll "route" none rfl rfl rfl (by decide) (by decide)
      (fun _ => rfl) (fun _ => rfl) (fun _ => rfl) (fun _ => rfl) (fun _ => rfl)
      (fun _ => rfl)).1,
   (fallback_priority_order cfg0 pyHashModel oApiFail oApiPong cApiFail cApiHi gApiFail
      gApiHi brainAll "route" none rfl rfl rfl (by decide) (by decide)
      (fun _ => rfl) (fun _ => rfl) (fun _ => rfl) (fun _ => rfl) (fun _ => rfl)
      (fun _ => rfl)).2.1,
   (fallback_priority_order cfg0 pyHashModel oApiFail oApiPong cApiFail cApiHi gApiFail
      gApiHi brainAll "route" none rfl rfl rfl (by decide) (by decide)
      (fun _ => rfl) (fun _ => rfl) (fun _ => rfl) (fun _ => rfl) (fun _ => rfl)
      (fun _ => rfl)).2.2.1⟩

/-- C2 counterexample: OpenAI returning an *empty* answer is still an
`LLMResponse` object, which is truthy in Python, so `think` returns the
empty-text success without ever trying Anthropic or Gemini — the claim
that routing moves on when an attempt "returns an empty answer" is false
on the code. -/
theorem empty_answer_does_not_fall_back :
    ((brainAll.think cfg0 pyHashModel oApiEmpty cApiHi gApiHi true "q" none
        none).response.map LLMResponse.text) = some ""
    ∧ (brainAll.think cfg0 pyHashModel oApiEmpty cApiHi gApiHi true "q" none
        none).requests.map AdapterRequest.provider = [Provider.openai] := by
  decide

@[simp] theorem Brain.thinkWithOpenai_brain_openaiClient (cfg : LLMConfigModel)
    (pyHash : String → Int) (oApi : OpenAIApi) (b : Brain) (prompt : String)
    (t : Option Rat) (mt : Nat) :
    (b.thinkWithOpenai cfg pyHash oApi prompt t mt).brain.openaiClient = b.openaiClient :=
  (Brain.thinkWithOpenai_flags cfg pyHash oApi b prompt t mt).1

@[simp] theorem Brain.thinkWithOpenai_brain_systemPrompt (cfg : LLMConfigModel)
    (pyHash : String → Int) (oApi : OpenAIApi) (b : Brain) (prompt : String)
    (t : Option Rat) (mt : Nat) :
    (b.thinkWithOpenai cfg pyHash oApi prompt t mt).brain.systemPrompt = b.systemPrompt :=
  (Brain.thinkWithOpenai_flags cfg pyHash oApi b prompt t mt).2.2.2

@[simp] theorem Brain.thinkWithClaude_brain_openaiClient (cfg : LLMConfigModel)
    (cApi : AnthropicApi) (b : Brain) (prompt : String) (t : Option Rat) (mt : Nat) :
    (b.thinkWithClaude cfg cApi prompt t mt).brain.openaiClient = b.openaiClient :=
  (Brain.thinkWithClaude_flags cfg cApi b prompt t mt).1

@[simp] theorem Brain.thinkWithClaude_brain_systemPrompt (cfg : LLMConfigModel)
    (cApi : AnthropicApi) (b : Brain) (prompt : String) (t : Option Rat) (mt : Nat) :
    (b.thinkWithClaude cfg cApi prompt t mt).brain.systemPrompt = b.systemPrompt :=
  (Brain.thinkWithClaude_flags cfg cApi b prompt t mt).2.2.2

@[simp] theorem Brain.thinkWithGemini_brain_openaiClient (cfg : LLMConfigModel)
    (gApi : GeminiApi) (fp : Bool) (b : Brain) (prompt : String) (t : Option Rat) :
    (b.thinkWithGemini cfg gApi fp prompt t).brain.openaiClient = b.openaiClient :=
  (Brain.thinkWithGemini_flags cfg gApi fp b prompt t).1

@[simp] theorem Brain.thinkWithGemini_brain_systemPrompt (cfg : LLMConfigModel)
    (gApi : GeminiApi) (fp : Bool) (b : Brain) (prompt : String) (t : Option Rat) :
    (b.thinkWithGemini cfg gApi fp prompt t).brain.systemPrompt = b.systemPrompt :=
  (Brain.thinkWithGemini_flags cfg gApi fp b prompt t).2.2.2

theorem Brain.trinityBranches_fst_flags (cfg : LLMConfigModel) (pyHash : String → Int)
    (oApi : OpenAIApi) (cApi : AnthropicApi) (gApi : GeminiApi) (fp : Bool)
    (b : Brain) (prompt : String) :
    (b.trinityBranches cfg pyHash oApi cApi gApi fp prompt).1.openaiClient = b.openaiClient
    ∧ (b.trinityBranches cfg pyHash oApi cApi gApi fp prompt).1.systemPrompt
        = b.systemPrompt := by
  by_cases h1 : b.openaiClient <;> by_cases h2 : b.anthropicClient <;>
    by_cases h3 : b.poeAvailable <;>
    simp [Brain.trinityBranches, h1, h2, h3]

/-- C9: whenever the synthesis phase produces a merged answer, the
resulting conversation state is exactly the pre-prompt original history
with one user turn (the original prompt) and one assistant turn (the
synthesized answer) appended — whatever per-branch state `b` the fan-out
phase left behind, so the provider branch turns are discarded and never
reach the original conversation state. -/
theorem synthesis_updates_history_once (cfg : LLMConfigModel) (synthApi : SynthApi)
    (b : Brain) (originalHistory : List Message) (prompt : String)
    (responses : List (String × String)) (text : String)
    (hne : responses ≠ [])
    (hO : b.openaiClient = true)
    (hs : synthApi (mkSynthRequest cfg b.systemPrompt prompt responses) = .ok text) :
    b.trinitySynthesis cfg synthApi originalHistory prompt responses
      = .ok ((({ b with conversationHistory := originalHistory }).addToHistory "user"
                prompt).addToHistory "assistant" text,
             some { text := text, provider := .openai, model := "trinity",
                    tokensUsed := 0, cachedFlag := false,
                    individualResponses := responses }) := by
  have hne' : responses.isEmpty = false := by
    cases responses with
    | nil => exact absurd rfl hne
    | cons hd tl => rfl
  simp only [Brain.trinitySynthesis, hne', Bool.false_eq_true, if_false, hO,
    Bool.not_true, hs]

/-- C9 witness: a post-branch brain with junk branch history, an empty
original history, and two collected responses. -/
theorem synthesis_updates_history_once_witness :
    brainLong.trinitySynthesis cfg0 synthApiOk [] "q" [("GPT-4o", "a"), ("Claude", "b")]
      = .ok ((({ brainLong with conversationHistory := [] }).addToHistory "user"
                "q").addToHistory "assistant" "unified answer",
             some { text := "unified answer", provider := .openai, model := "trinity",
                    tokensUsed := 0, cachedFlag := false,
                    individualResponses := [("GPT-4o", "a"), ("Claude", "b")] }) :=
  synthesis_updates_history_once cfg0 synthApiOk brainLong [] "q"
    [("GPT-4o", "a"), ("Claude", "b")] "unified answer" (by decide) rfl rfl

/-- C4 (amended): the single-provider operations never raise (every
adapter exception is caught and surfaced as a no-response value, as the
`Option`-valued embedding of `think` records), but `trinity_mode` has no
exception handler around its synthesis phase: it returns a value exactly
when no branch produced an answer, or the OpenAI client is configured and
the synthesis call does not raise; otherwise — a missing OpenAI client
with a successful non-OpenAI branch, or a raising synthesis call — the
exception escapes the orchestrator boundary. -/
theorem trinity_exception_characterization (cfg : LLMConfigModel) (pyHash : String → Int)
    (oApi : OpenAIApi) (cApi : AnthropicApi) (gApi : GeminiApi) (fpInstalled : Bool)
    (synthApi : SynthApi) (b : Brain) (prompt : String) :
    (b.trinityMode cfg pyHash oApi cApi gApi fpInstalled synthApi prompt).isOk
      = ((b.trinityBranches cfg pyHash oApi cApi gApi fpInstalled prompt).2.isEmpty
         || (b.openaiClient
             && (synthApi (mkSynthRequest cfg b.systemPrompt prompt
                   (b.trinityBranches cfg pyHash oApi cApi gApi fpInstalled
                     prompt).2)).isOk)) := by
  obtain ⟨hfO, hfS⟩ := Brain.trinityBranches_fst_flags cfg pyHash oApi cApi gApi
    fpInstalled b prompt
  simp only [Brain.trinityMode]
  by_cases hresp : (b.trinityBranches cfg pyHash oApi cApi gApi fpInstalled prompt).2.isEmpty
  · simp [Brain.trinitySynthesis, hresp, Except.isOk, Except.toBool]
  · have hresp' : (b.trinityBranches cfg pyHash oApi cApi gApi fpInstalled
        prompt).2.isEmpty = false := by
      exact Bool.not_eq_true _ |>.mp hresp
    simp only [Brain.trinitySynthesis, hresp', Bool.false_eq_true, if_false, hfO, hfS,
      Bool.false_or]
    by_cases hcl : b.openaiClient
    · simp only [hcl, Bool.not_true, Bool.false_eq_true, if_false, Bool.true_and]
      cases hs : synthApi (mkSynthRequest cfg b.systemPrompt prompt
          (b.trinityBranches cfg pyHash oApi cApi gApi fpInstalled prompt).2) with
      | ok t => simp [hs, Except.isOk, Except.toBool]
      | error e => simp [hs, Except.isOk, Except.toBool]
    · have hcl' : b.openaiClient = false := Bool.not_eq_true _ |>.mp hcl
      simp [hcl', Except.isOk, Except.toBool]

/-- C4 counterexample: with only the Anthropic key configured, the Claude
branch succeeds, so trinity mode reaches `self.openai_client.chat` with
`openai_client = None` — the `AttributeError` escapes `trinity_mode`
uncaught (the result is an exception, not a returned value), contradicting
the claim that the orchestrator boundary never raises. -/
theorem trinity_synthesis_exception_escapes :
    (brainClaudeOnly.trinityBranches cfg0 pyHashModel oApiFail cApiHi gApiFail false "q").2
      = [("Claude", "hi from claude")]
    ∧ (brainClaudeOnly.trinityMode cfg0 pyHashModel oApiFail cApiHi gApiFail false
        synthApiOk "q").isOk = false := by
  decide

/-- C5: the trinity worker tasks of brain.py lines 309-319 all rebind and
mutate the one shared `self.conversation_history` attribute.  Under the
legal interleaving `schedEx` (each task's four steps stay in order), task
2's provider request reads a history containing task 1's in-flight user
turn and assistant answer — there is no per-task snapshot isolation. -/
theorem trinity_tasks_share_conversation_state :
    taskProjection schedEx 1
      = [TaskAction.resetCopy, TaskAction.appendUser, TaskAction.sendRequest,
         TaskAction.appendAssistant]
    ∧ taskProjection schedEx 2
      = [TaskAction.resetCopy, TaskAction.appendUser, TaskAction.sendRequest,
         TaskAction.appendAssistant]
    ∧ (runSchedule [] "q" answersEx schedEx).observed
      = [(1, [{ role := "user", content := "q" }]),
         (2, [{ role := "user", content := "q" },
              { role := "assistant", content := "answer from GPT" },
              { role := "user", content := "q" }])] := by
  decide

theorem dictGet_cachePut_self (c : List (Int × String)) (k : Int) (v : String) :
    dictGet (cachePut c k v) k = some v := by
  unfold cachePut
  split <;> exact dictGet_dictSet_self _ _ _

theorem Brain.getCachedResponse_eq_some (pyHash : String → Int) (b : Brain)
    (prompt s : String) (hs : b.getCachedResponse pyHash prompt = some s) :
    b.conversationHistory.length ≤ CACHE_HISTORY_THRESHOLD
    ∧ dictGet b.responseCache (pyHash prompt) = some s := by
  unfold Brain.getCachedResponse Brain.cacheKey at hs
  by_cases hlb : b.conversationHistory.length > CACHE_HISTORY_THRESHOLD
  · rw [if_pos hlb] at hs
    simp at hs
  · rw [if_neg hlb] at hs
    simp only at hs
    refine ⟨Nat.le_of_not_lt hlb, ?_⟩
    by_cases hk : pyHash prompt ≠ 0
    · rwa [if_pos hk] at hs
    · rw [if_neg hk] at hs
      simp at hs

theorem Brain.getCachedResponse_of (pyHash : String → Int) (b : Brain) (prompt : String)
    (hlen : b.conversationHistory.length ≤ CACHE_HISTORY_THRESHOLD)
    (hk : pyHash prompt ≠ 0) :
    b.getCachedResponse pyHash prompt = dictGet b.responseCache (pyHash prompt) := by
  unfold Brain.getCachedResponse Brain.cacheKey
  rw [if_neg (Nat.not_lt.mpr hlen)]
  simp [hk]

theorem Brain.cacheResponse_of (pyHash : String → Int) (b : Brain) (prompt v : String)
    (hlen : b.conversationHistory.length ≤ CACHE_HISTORY_THRESHOLD)
    (hk : pyHash prompt ≠ 0) :
    b.cacheResponse pyHash prompt v
      = { b with responseCache := cachePut b.responseCache (pyHash prompt) v } := by
  unfold Brain.cacheResponse Brain.cacheKey
  rw [if_neg (Nat.not_lt.mpr hlen)]
  simp [hk]

theorem Brain.thinkWithOpenai_hit (cfg : LLMConfigModel) (pyHash : String → Int)
    (oApi : OpenAIApi) (b : Brain) (prompt : String) (temp : Option Rat) (mt : Nat)
    (s : String) (hcl : b.openaiClient = true)
    (hs : b.getCachedResponse pyHash prompt = some s) (hsne : s ≠ "") :
    b.thinkWithOpenai cfg pyHash oApi prompt temp mt
      = ⟨(b.addToHistory "user" prompt).addToHistory "assistant" s,
         some { text := s, provider := .openai, model := cfg.PRIMARY_MODEL,
                tokensUsed := 0, cachedFlag := true, individualResponses := [] }, []⟩ := by
  have htru : pyTruthyOptStr (some s) = true := by
    simp [pyTruthyOptStr, hsne]
  simp only [Brain.thinkWithOpenai, hcl, Bool.not_true, Bool.false_eq_true, if_false,
    hs, htru, if_true, Option.getD_some]

theorem Brain.thinkWithOpenai_ok_eq (cfg : LLMConfigModel) (pyHash : String → Int)
    (oApi : OpenAIApi) (b : Brain) (prompt : String) (temp : Option Rat) (mt : Nat)
    (text : String) (usage : Option Nat)
    (hcl : b.openaiClient = true)
    (hmiss : pyTruthyOptStr (b.getCachedResponse pyHash prompt) = false)
    (hok : oApi (OpenAIRequest.mk cfg.PRIMARY_MODEL
        ((b.addToHistory "user" prompt).formatMessagesOpenai)
        (pyOrTemp temp cfg.DEFAULT_TEMPERATURE) mt) = .ok (text, usage)) :
    b.thinkWithOpenai cfg pyHash oApi prompt temp mt
      = ⟨((b.addToHistory "user" prompt).addToHistory "assistant" text).cacheResponse
           pyHash prompt text,
         some { text := text, provider := .openai, model := cfg.PRIMARY_MODEL,
                tokensUsed := usage.getD 0, cachedFlag := false,
                individualResponses := [] },
         [AdapterRequest.openai (OpenAIRequest.mk cfg.PRIMARY_MODEL
            ((b.addToHistory "user" prompt).formatMessagesOpenai)
            (pyOrTemp temp cfg.DEFAULT_TEMPERATURE) mt)]⟩ := by
  simp only [Brain.thinkWithOpenai, hcl, Bool.not_true, Bool.false_eq_true, if_false,
    hmiss, hok]

/-- C1 (amended): when the first `respond` call's OpenAI attempt produces
an answer `r`, the prompt's Python hash is nonzero (the hash of the empty
string is zero and disables caching), the answer text is nonempty (an
empty cached string is falsy and reads as a miss), and the history after
the first call is still within the 10-turn freshness threshold, then the
cache holds the answer under the prompt's hash key, and a second `respond`
call for the same prompt — under any provider behaviour whatsoever —
issues no adapter request and returns the cached text marked as served
from cache.  Cache entries are created only on this OpenAI path (the
Claude and Gemini paths never touch the cache) and only when the
*post-exchange* history length is still within the threshold. -/
theorem repeated_prompt_cache_hit (cfg : LLMConfigModel) (pyHash : String → Int)
    (oApi oApi2 : OpenAIApi) (cApi cApi2 : AnthropicApi) (gApi gApi2 : GeminiApi)
    (fp fp2 : Bool) (b : Brain) (prompt : String) (temp temp2 : Option Rat)
    (r : LLMResponse)
    (hk : pyHash prompt ≠ 0)
    (h1 : (b.thinkWithOpenai cfg pyHash oApi prompt temp 2000).response = some r)
    (htext : r.text ≠ "")
    (hlen : (b.thinkWithOpenai cfg pyHash oApi prompt temp
        2000).brain.conversationHistory.length ≤ CACHE_HISTORY_THRESHOLD) :
    b.think cfg pyHash oApi cApi gApi fp prompt none temp
      = b.thinkWithOpenai cfg pyHash oApi prompt temp 2000
    ∧ dictGet (b.thinkWithOpenai cfg pyHash oApi prompt temp 2000).brain.responseCache
        (pyHash prompt) = some r.text
    ∧ ((b.thinkWithOpenai cfg pyHash oApi prompt temp 2000).brain.think cfg pyHash oApi2
        cApi2 gApi2 fp2 prompt none temp2).requests = []
    ∧ ((b.thinkWithOpenai cfg pyHash oApi prompt temp 2000).brain.think cfg pyHash oApi2
        cApi2 gApi2 fp2 prompt none temp2).response
      = some { text := r.text, provider := .openai, model := cfg.PRIMARY_MODEL,
               tokensUsed := 0, cachedFlag := true, individualResponses := [] } := by
  have hcl : b.openaiClient = true := by
    by_cases hc : b.openaiClient
    · exact hc
    · exfalso
      have hc' : b.openaiClient = false := Bool.not_eq_true _ |>.mp hc
      simp [Brain.thinkWithOpenai, hc'] at h1
  have hENT : dictGet (b.thinkWithOpenai cfg pyHash oApi prompt temp
      2000).brain.responseCache (pyHash prompt) = some r.text := by
    by_cases hhit : pyTruthyOptStr (b.getCachedResponse pyHash prompt) = true
    · obtain ⟨s, hs⟩ : ∃ s, b.getCachedResponse pyHash prompt = some s := by
        cases hgc : b.getCachedResponse pyHash prompt with
        | none => rw [hgc] at hhit; simp [pyTruthyOptStr] at hhit
        | some s => exact ⟨s, rfl⟩
      have hsne : s ≠ "" := by
        rw [hs] at hhit
        simpa [pyTruthyOptStr] using hhit
      have ht1 := Brain.thinkWithOpenai_hit cfg pyHash oApi b prompt temp 2000 s hcl hs hsne
      have hrs : r.text = s := by
        rw [ht1] at h1
        rw [← Option.some.inj h1]
      rw [ht1, hrs]
      simp only [Brain.addToHistory_responseCache]
      exact (Brain.getCachedResponse_eq_some pyHash b prompt s hs).2
    · have hmiss : pyTruthyOptStr (b.getCachedResponse pyHash prompt) = false :=
        Bool.not_eq_true _ |>.mp hhit
      cases hapi : oApi (OpenAIRequest.mk cfg.PRIMARY_MODEL
          ((b.addToHistory "user" prompt).formatMessagesOpenai)
          (pyOrTemp temp cfg.DEFAULT_TEMPERATURE) 2000) with
      | error e =>
          exfalso
          simp only [Brain.thinkWithOpenai, hcl, Bool.not_true, Bool.false_eq_true,
            if_false, hmiss, hapi] at h1
          simp at h1
      | ok v =>
          obtain ⟨text, usage⟩ := v
          have ht1 := Brain.thinkWithOpenai_ok_eq cfg pyHash oApi b prompt temp 2000
            text usage hcl hmiss hapi
          have hrs : r.text = text := by
            rw [ht1] at h1
            rw [← Option.some.inj h1]
          have hb2len : ((b.addToHistory "user" prompt).addToHistory "assistant"
              text).conversationHistory.length ≤ CACHE_HISTORY_THRESHOLD := by
            have hl := hlen
            rw [ht1] at hl
            simpa [Brain.cacheResponse_conversationHistory] using hl
          rw [ht1]
          rw [Brain.cacheResponse_of pyHash _ prompt text hb2len hk]
          rw [hrs]
          exact dictGet_cachePut_self _ _ _
  have hb1cl : (b.thinkWithOpenai cfg pyHash oApi prompt temp 2000).brain.openaiClient
      = true := by
    rw [Brain.thinkWithOpenai_brain_openaiClient]
    exact hcl
  have hb1get : (b.thinkWithOpenai cfg pyHash oApi prompt temp
      2000).brain.getCachedResponse pyHash prompt = some r.text := by
    rw [Brain.getCachedResponse_of pyHash _ prompt hlen hk]
    exact hENT
  have hsecond := Brain.thinkWithOpenai_hit cfg pyHash oApi2
    (b.thinkWithOpenai cfg pyHash oApi prompt temp 2000).brain prompt temp2 2000
    r.text hb1cl hb1get htext
  refine ⟨?_, hENT, ?_, ?_⟩
  · simp only [Brain.think, h1, Option.isSome_some, if_true]
  · simp only [Brain.think, hsecond, Option.isSome_some, if_true]
  · simp only [Brain.think, hsecond, Option.isSome_some, if_true]

/-- C1 witness: prompt "ping" answered "pong" on a fresh brain; the second
call is run against providers that all *fail*, and still returns "pong"
from the cache with no adapter request. -/
theorem repeated_prompt_cache_hit_witness :
    brainAll.think cfg0 pyHashModel oApiPong cApiFail gApiFail true "ping" none none
      = brainAll.thinkWithOpenai cfg0 pyHashModel oApiPong "ping" none 2000
    ∧ dictGet (brainAll.thinkWithOpenai cfg0 pyHashModel oApiPong "ping" none
        2000).brain.responseCache (pyHashModel "ping") = some "pong"
    ∧ ((brainAll.thinkWithOpenai cfg0 pyHashModel oApiPong "ping" none 2000).brain.think
        cfg0 pyHashModel oApiFail cApiFail gApiFail true "ping" none none).requests = []
    ∧ ((brainAll.thinkWithOpenai cfg0 pyHashModel oApiPong "ping" none 2000).brain.think
        cfg0 pyHashModel oApiFail cApiFail gApiFail true "ping" none none).response
      = some { text := "pong", provider := .openai, model := cfg0.PRIMARY_MODEL,
               tokensUsed := 0, cachedFlag := true, individualResponses := [] } :=
  repeated_prompt_cache_hit cfg0 pyHashModel oApiPong oApiFail cApiFail cApiFail
    gApiFail gApiFail true true brainAll "ping" none none
    { text := "pong", provider := .openai, model := cfg0.PRIMARY_MODEL,
      tokensUsed := 3, cachedFlag := false, individualResponses := [] }
    (by decide) (by decide) (by decide) (by decide)

/-- C1 counterexample: CPython's `hash("")` is `0`, and the cache-key
guard `if cache_key:` treats `0` as "no key".  For the empty prompt on a
fresh brain, the first call succeeds with "pong" and both calls stay far
under the freshness threshold (history lengths 0 and 2), yet no cache
entry is created and the second identical call issues an OpenAI request
again instead of a cache hit — refuting both halves of the claim. -/
theorem empty_prompt_never_cached :
    ((brainAll.think cfg0 pyHashModel oApiPong cApiFail gApiFail true "" none
        none).response.map LLMResponse.text) = some "pong"
    ∧ (brainAll.think cfg0 pyHashModel oApiPong cApiFail gApiFail true "" none
        none).brain.conversationHistory.length = 2
    ∧ (brainAll.think cfg0 pyHashModel oApiPong cApiFail gApiFail true "" none
        none).brain.responseCache = []
    ∧ ((brainAll.think cfg0 pyHashModel oApiPong cApiFail gApiFail true "" none
        none).brain.think cfg0 pyHashModel oApiPong cApiFail gApiFail true "" none
        none).requests.map AdapterRequest.provider = [Provider.openai]
    ∧ (((brainAll.think cfg0 pyHashModel oApiPong cApiFail gApiFail true "" none
        none).brain.think cfg0 pyHashModel oApiPong cApiFail gApiFail true "" none
        none).response.map LLMResponse.cachedFlag) = some false := by
  decide
